import Mathlib

/-!
Verification of the error-taxonomy module of `csvpivot` (`src/errors.rs`).

The module defines a four-variant tagged union `CsvPivotError`, a `Display`
rendering over it, a short `description`, and two `From` conversions that
promote foreign errors (a CSV-library error and a standard I/O error) into
the union.

The two foreign error types are opaque to the module: it only uses their own
rendering and short description. They are therefore modelled as records
carrying those two strings. `line_num` is a Rust `usize`; arithmetic on it is
modelled as `Nat` arithmetic modulo `2 ^ 64` (release-build wrapping
semantics).
-/

namespace CsvPivot

/-- A CSV-library error (`csv::Error`), opaque except for its own rendering
(`Display`) and short description (`Error::description`). -/
structure CsvLibError where
  display : String
  description : String
deriving DecidableEq

/-- A standard I/O error (`io::Error`), opaque except for its own rendering
(`Display`) and short description (`Error::description`). -/
structure IoError where
  display : String
  description : String
deriving DecidableEq

/-- The closed tagged union `CsvPivotError` from `src/errors.rs`. -/
inductive CsvPivotError where
  | CsvError : CsvLibError → CsvPivotError
  | InvalidConfiguration : String → CsvPivotError
  | Io : IoError → CsvPivotError
  | ParsingError : (line_num : Nat) → (err : String) → CsvPivotError
deriving DecidableEq

/-- The number of values of a Rust `usize` (64-bit target). -/
def USIZE_SIZE : Nat := 2 ^ 64

/-- Rust `usize` addition with release-build wrapping semantics. -/
def usizeAdd (a b : Nat) : Nat := (a + b) % USIZE_SIZE

/-- `impl fmt::Display for CsvPivotError` (`src/errors.rs`, lines 54–73):
`CsvError`/`Io` delegate to the wrapped error, `InvalidConfiguration` and
`ParsingError` use fixed templates, the latter printing `line_num + 1`. -/
def CsvPivotError.display : CsvPivotError → String
  | CsvError err => err.display
  | InvalidConfiguration err => "Could not properly configure the aggregator: " ++ err
  | Io err => err.display
  | ParsingError line_num err =>
      "Could not parse record " ++ toString (usizeAdd line_num 1) ++ ": " ++ err

/-- `impl Error for CsvPivotError`, `description` (`src/errors.rs`, lines
75–84): `CsvError`/`Io` delegate, the other two variants return fixed
strings. -/
def CsvPivotError.description : CsvPivotError → String
  | CsvError err => err.description
  | Io err => err.description
  | InvalidConfiguration _ => "could not configure the aggregator"
  | ParsingError _ _ => "failed to parse values column"

/-- `impl From<io::Error> for CsvPivotError` (`src/errors.rs`, lines 86–90). -/
def CsvPivotError.fromIo (err : IoError) : CsvPivotError :=
  CsvPivotError.Io err

/-- `impl From<csv::Error> for CsvPivotError` (`src/errors.rs`, lines 92–96). -/
def CsvPivotError.fromCsv (err : CsvLibError) : CsvPivotError :=
  CsvPivotError.CsvError err

/-- C2: construction and rendering never fail: `display` and `description`
are total over all four variants (they always return a string), including
the extreme payload `line_num = usize::MAX`, for which `display` still
returns a defined string. -/
theorem C2_display_description_total :
    (∀ e : CsvPivotError, ∃ s : String, e.display = s)
      ∧ (∀ e : CsvPivotError, ∃ s : String, e.description = s)
      ∧ (CsvPivotError.ParsingError (2 ^ 64 - 1) "m").display
          = "Could not parse record 0: m" := by
  refine ⟨fun e => ⟨e.display, rfl⟩, fun e => ⟨e.description, rfl⟩, ?_⟩
  decide

/-- C3: for every message `m`, rendering `InvalidConfiguration m` yields
exactly the string "Could not properly configure the aggregator: " ++ m. -/
theorem C3_invalid_configuration_display (m : String) :
    (CsvPivotError.InvalidConfiguration m).display
      = "Could not properly configure the aggregator: " ++ m := rfl

/-- C4: rendering `CsvError e` and `Io e` equals the wrapped error's own
rendering verbatim, with no added text. -/
theorem C4_wrapped_display_passthrough (e : CsvLibError) (e2 : IoError) :
    (CsvPivotError.CsvError e).display = e.display
      ∧ (CsvPivotError.Io e2).display = e2.display := ⟨rfl, rfl⟩

/-- C5: the `From` conversions map every I/O error to exactly the `Io`
variant and every CSV-library error to exactly the `CsvError` variant,
payload unchanged. -/
theorem C5_from_conversions (e : IoError) (e2 : CsvLibError) :
    CsvPivotError.fromIo e = CsvPivotError.Io e
      ∧ CsvPivotError.fromCsv e2 = CsvPivotError.CsvError e2 := ⟨rfl, rfl⟩

/-- C6: the short description of `ParsingError` is always the fixed string
"failed to parse values column" and that of `InvalidConfiguration` is always
"could not configure the aggregator", independent of payload. -/
theorem C6_fixed_descriptions (n : Nat) (m m2 : String) :
    (CsvPivotError.ParsingError n m).description = "failed to parse values column"
      ∧ (CsvPivotError.InvalidConfiguration m2).description
          = "could not configure the aggregator" := ⟨rfl, rfl⟩

/-- C7: the short description of `CsvError e` and `Io e` equals the wrapped
error's own short description, forwarded verbatim. -/
theorem C7_wrapped_description_delegation (e : CsvLibError) (e2 : IoError) :
    (CsvPivotError.CsvError e).description = e.description
      ∧ (CsvPivotError.Io e2).description = e2.description := ⟨rfl, rfl⟩

/-- C8: promoting an I/O error via `From` and then rendering yields exactly
the same text as the error's own rendering. -/
theorem C8_io_promotion_roundtrip (e : IoError) :
    (CsvPivotError.fromIo e).display = e.display := rfl

/-! Decimal rendering of `Nat` (the embedding of Rust's `Display for usize`):
its characters are digit characters, never a colon, and it is injective.
Used to settle the claims about the `ParsingError` message template. -/

theorem digitChar_star (n : Nat) (h : 16 ≤ n) : Nat.digitChar n = '*' := by
  unfold Nat.digitChar
  rw [if_neg (show ¬n = 0 by omega), if_neg (show ¬n = 1 by omega),
    if_neg (show ¬n = 2 by omega), if_neg (show ¬n = 3 by omega),
    if_neg (show ¬n = 4 by omega), if_neg (show ¬n = 5 by omega),
    if_neg (show ¬n = 6 by omega), if_neg (show ¬n = 7 by omega),
    if_neg (show ¬n = 8 by omega), if_neg (show ¬n = 9 by omega),
    if_neg (show ¬n = 10 by omega), if_neg (show ¬n = 11 by omega),
    if_neg (show ¬n = 12 by omega), if_neg (show ¬n = 13 by omega),
    if_neg (show ¬n = 14 by omega), if_neg (show ¬n = 15 by omega)]

theorem digitChar_ne_colon (n : Nat) : Nat.digitChar n ≠ ':' := by
  rcases Nat.lt_or_ge n 16 with h | h
  · interval_cases n <;> decide
  · rw [digitChar_star n h]; decide

theorem toDigitsCore_ne_colon (fuel : Nat) :
    ∀ (n : Nat) (ds : List Char), (∀ c ∈ ds, c ≠ ':') →
      ∀ c ∈ Nat.toDigitsCore 10 fuel n ds, c ≠ ':' := by
  induction fuel with
  | zero =>
    intro n ds hds c hc
    exact hds c hc
  | succ fuel ih =>
    intro n ds hds c hc
    simp only [Nat.toDigitsCore] at hc
    have hcons : ∀ x ∈ Nat.digitChar (n % 10) :: ds, x ≠ ':' := by
      intro x hx
      rcases List.mem_cons.mp hx with hx | hx
      · subst hx; exact digitChar_ne_colon _
      · exact hds x hx
    split at hc
    · exact hcons c hc
    · exact ih (n / 10) _ hcons c hc

theorem repr_data_ne_colon (n : Nat) : ∀ c ∈ (Nat.repr n).data, c ≠ ':' := by
  intro c hc
  have hdata : (Nat.repr n).data = Nat.toDigitsCore 10 (n + 1) n [] := rfl
  rw [hdata] at hc
  exact toDigitsCore_ne_colon (n + 1) n [] (by simp) c hc

theorem toDigitsCore_append (fuel : Nat) :
    ∀ (n : Nat) (ds : List Char),
      Nat.toDigitsCore 10 fuel n ds = Nat.toDigitsCore 10 fuel n [] ++ ds := by
  induction fuel with
  | zero => intro n ds; simp [Nat.toDigitsCore]
  | succ fuel ih =>
    intro n ds
    simp only [Nat.toDigitsCore]
    split
    · simp
    · rw [ih (n / 10) (Nat.digitChar (n % 10) :: ds),
        ih (n / 10) [Nat.digitChar (n % 10)], List.append_assoc]
      simp

/-- The numeric value of a decimal digit character. -/
def charVal (c : Char) : Nat := c.toNat - 48

/-- Interpret a list of decimal digit characters, most significant first. -/
def interpDigits (l : List Char) : Nat :=
  l.foldl (fun a c => 10 * a + charVal c) 0

theorem charVal_digitChar (k : Nat) (h : k < 10) :
    charVal (Nat.digitChar k) = k := by
  interval_cases k <;> decide

theorem interpDigits_toDigitsCore (fuel : Nat) :
    ∀ n : Nat, n < fuel → interpDigits (Nat.toDigitsCore 10 fuel n []) = n := by
  induction fuel with
  | zero => intro n h; exact absurd h (Nat.not_lt_zero n)
  | succ fuel ih =>
    intro n h
    simp only [Nat.toDigitsCore]
    split
    · rename_i h10
      have hn : n % 10 = n := by omega
      rw [hn]
      have hlt : n < 10 := by omega
      rw [show interpDigits [Nat.digitChar n] = charVal (Nat.digitChar n) by
        simp [interpDigits, List.foldl]]
      exact charVal_digitChar n hlt
    · rename_i h10
      rw [toDigitsCore_append fuel (n / 10) [Nat.digitChar (n % 10)]]
      have hdiv : n / 10 < fuel := by omega
      simp only [interpDigits, List.foldl_append, List.foldl]
      rw [show List.foldl (fun a c => 10 * a + charVal c) 0
            (Nat.toDigitsCore 10 fuel (n / 10) []) = n / 10 from ih (n / 10) hdiv]
      rw [charVal_digitChar (n % 10) (by omega)]
      omega

theorem repr_injective {a b : Nat} (h : Nat.repr a = Nat.repr b) : a = b := by
  have hdig : Nat.toDigitsCore 10 (a + 1) a [] = Nat.toDigitsCore 10 (b + 1) b [] := by
    have := congrArg String.data h
    simpa [Nat.repr, Nat.toDigits, List.asString] using this
  calc a = interpDigits (Nat.toDigitsCore 10 (a + 1) a []) :=
        (interpDigits_toDigitsCore (a + 1) a (Nat.lt_succ_self a)).symm
    _ = interpDigits (Nat.toDigitsCore 10 (b + 1) b []) := by rw [hdig]
    _ = b := interpDigits_toDigitsCore (b + 1) b (Nat.lt_succ_self b)

theorem append_colon_inj :
    ∀ (l1 l2 r1 r2 : List Char), (∀ c ∈ l1, c ≠ ':') → (∀ c ∈ l2, c ≠ ':') →
      l1 ++ ':' :: r1 = l2 ++ ':' :: r2 → l1 = l2 ∧ r1 = r2 := by
  intro l1
  induction l1 with
  | nil =>
    intro l2 r1 r2 h1 h2 heq
    cases l2 with
    | nil => simpa using heq
    | cons c t =>
      exfalso
      simp only [List.nil_append, List.cons_append, List.cons.injEq] at heq
      exact h2 c (List.mem_cons_self c t) heq.1.symm
  | cons c t ih =>
    intro l2 r1 r2 h1 h2 heq
    cases l2 with
    | nil =>
      exfalso
      simp only [List.nil_append, List.cons_append, List.cons.injEq] at heq
      exact h1 c (List.mem_cons_self c t) heq.1
    | cons c2 t2 =>
      simp only [List.cons_append, List.cons.injEq] at heq
      obtain ⟨hc, ht⟩ := heq
      obtain ⟨ht2, hr⟩ := ih t2 r1 r2
        (fun x hx => h1 x (List.mem_cons_of_mem _ hx))
        (fun x hx => h2 x (List.mem_cons_of_mem _ hx)) ht
      exact ⟨by rw [hc, ht2], hr⟩

/-- C1 counterexample: at `line_num = usize::MAX` (the value `2 ^ 64 - 1`),
the rendered record number wraps to `0`, so the output is not the literal
template with the mathematical successor `2 ^ 64`. -/
theorem C1_counterexample :
    ¬ ((CsvPivotError.ParsingError (2 ^ 64 - 1) "x").display
        = "Could not parse record " ++ toString (2 ^ 64 - 1 + 1) ++ ": " ++ "x") := by
  decide

/-- C1 (amended): for every `line_num` `n` with `n + 1 < 2 ^ 64` (that is,
`n < usize::MAX`) and message `m`, rendering `ParsingError n m` yields
exactly the template with record number `n + 1`. -/
theorem C1_parsing_display (n : Nat) (m : String) (h : n + 1 < 2 ^ 64) :
    (CsvPivotError.ParsingError n m).display
      = "Could not parse record " ++ toString (n + 1) ++ ": " ++ m := by
  simp only [CsvPivotError.display]
  rw [show usizeAdd n 1 = n + 1 from Nat.mod_eq_of_lt h]

theorem C1_parsing_display_witness :
    4 + 1 < 2 ^ 64
      ∧ (CsvPivotError.ParsingError 4 "invalid digit found in string").display
          = "Could not parse record " ++ toString (4 + 1) ++ ": "
              ++ "invalid digit found in string" :=
  ⟨by decide, C1_parsing_display 4 "invalid digit found in string" (by decide)⟩

/-- C9: the record number is computed with fixed-width machine addition:
at `line_num = usize::MAX` the rendered number is `(line_num + 1) % 2 ^ 64 = 0`,
and the rendered number equals the stored index plus one whenever
`line_num < usize::MAX`. -/
theorem C9_machine_wraparound (n : Nat) (m : String) (h : n < 2 ^ 64 - 1) :
    (CsvPivotError.ParsingError (2 ^ 64 - 1) m).display
        = "Could not parse record 0: " ++ m
      ∧ (CsvPivotError.ParsingError n m).display
          = "Could not parse record " ++ toString (n + 1) ++ ": " ++ m := by
  constructor
  · simp only [CsvPivotError.display]
    rw [show usizeAdd (2 ^ 64 - 1) 1 = 0 by decide]
    rw [show ("Could not parse record " ++ toString (0 : Nat) ++ ": ")
        = "Could not parse record 0: " by decide]
  · simp only [CsvPivotError.display]
    rw [show usizeAdd n 1 = n + 1 from Nat.mod_eq_of_lt (show n + 1 < 2 ^ 64 by omega)]

theorem C9_machine_wraparound_witness :
    3 < 2 ^ 64 - 1
      ∧ ((CsvPivotError.ParsingError (2 ^ 64 - 1) "x").display
            = "Could not parse record 0: " ++ "x"
          ∧ (CsvPivotError.ParsingError 3 "x").display
              = "Could not parse record " ++ toString (3 + 1) ++ ": " ++ "x") :=
  ⟨by decide, C9_machine_wraparound 3 "x" (by decide)⟩

/-- C10: rendering of `ParsingError` is injective over `usize` payloads: if
`(n1, m1) ≠ (n2, m2)` then the two rendered strings differ, because the
decimal record number contains no colon and the message follows the first
": " verbatim. -/
theorem C10_parsing_display_injective (n1 n2 : Nat) (m1 m2 : String)
    (h1 : n1 < 2 ^ 64) (h2 : n2 < 2 ^ 64) (hne : (n1, m1) ≠ (n2, m2)) :
    (CsvPivotError.ParsingError n1 m1).display
      ≠ (CsvPivotError.ParsingError n2 m2).display := by
  intro h
  apply hne
  simp only [CsvPivotError.display] at h
  have hd := congrArg String.data h
  simp only [String.data_append, List.append_assoc] at hd
  have hd2 := List.append_cancel_left hd
  simp only [List.cons_append, List.nil_append] at hd2
  obtain ⟨hrepr, htail⟩ := append_colon_inj
    (toString (usizeAdd n1 1)).data (toString (usizeAdd n2 1)).data
    (' ' :: m1.data) (' ' :: m2.data)
    (repr_data_ne_colon (usizeAdd n1 1)) (repr_data_ne_colon (usizeAdd n2 1)) hd2
  have hm : m1 = m2 := String.ext (List.cons.injEq _ _ _ _ ▸ htail).2
  have hk : usizeAdd n1 1 = usizeAdd n2 1 := repr_injective (String.ext hrepr)
  have hn : n1 = n2 := by
    simp only [usizeAdd, USIZE_SIZE] at hk
    omega
  rw [hn, hm]

theorem C10_parsing_display_injective_witness :
    0 < 2 ^ 64 ∧ 1 < 2 ^ 64 ∧ ((0 : Nat), "x") ≠ ((1 : Nat), "x")
      ∧ (CsvPivotError.ParsingError 0 "x").display
          ≠ (CsvPivotError.ParsingError 1 "x").display :=
  ⟨by decide, by decide, by decide,
    C10_parsing_display_injective 0 1 "x" "x" (by decide) (by decide) (by decide)⟩

end CsvPivot
